import Mathlib

/-!
Shallow embedding of the two to-do applications of the repository.

* `TodoA` models `src/TODO_App/TODO_App/TODO_App.py` (class `TodoState`):
  tasks are referenced by positional index, the filter is a plain string.
* `TodoB` models `src/TODO_App/todo_app.py` (class `TodoState`):
  tasks are referenced by a `(description, created_at)` key.

Python strings are Lean `String`s; Python `str.strip()` is `pyStrip`;
Python list indexing (including negative indices and `IndexError`) is
`pyIndex`; event handlers that can raise return `Option` (with `none`
standing for the raised `IndexError`).  The wall clock read by
`datetime.datetime.now().strftime(...)` in `add_task` is passed in as an
explicit string argument `now`.
-/

/-- The whitespace characters removed by Python `str.strip()`. -/
def isPySpace (c : Char) : Bool :=
  c = ' ' || c = '\t' || c = '\n' || c = '\r' || c = '\x0b' || c = '\x0c'

/-- Python `str.strip()` on the character list: drop whitespace from the front,
then from the back. -/
def stripChars (l : List Char) : List Char :=
  (((l.dropWhile isPySpace).reverse).dropWhile isPySpace).reverse

/-- Python `s.strip()`. -/
def pyStrip (s : String) : String := ⟨stripChars s.data⟩

/-- A string that is empty or consists only of whitespace
(`s.strip() == ""` territory). -/
def Blank (s : String) : Prop := s.data.all isPySpace = true

instance (s : String) : Decidable (Blank s) := by unfold Blank; infer_instance

/-- Python list index resolution for a list of length `n`: a non-negative
index must be `< n`, a negative index counts from the back; anything else
raises `IndexError` (`none`). -/
def pyIndex (n : Nat) (i : Int) : Option Nat :=
  if 0 ≤ i then
    if i < (n : Int) then some i.toNat else none
  else
    if -(n : Int) ≤ i then some (i + (n : Int)).toNat else none

namespace TodoA

/-- One entry of `TodoState.todos` in `TODO_App.py`:
`{"text": ..., "completed": ...}`. -/
structure Todo where
  text : String
  completed : Bool
deriving Repr, DecidableEq

/-- The state of `TODO_App.py`: `todos`, `new_todo`, `filter_status`. -/
structure TodoState where
  todos : List Todo
  new_todo : String
  filter_status : String
deriving Repr, DecidableEq

/-- The declared defaults: `todos = []`, `new_todo = ""`,
`filter_status = "all"`. -/
def initState : TodoState := { todos := [], new_todo := "", filter_status := "all" }

/-- Handler `add_todo`: if `self.new_todo.strip() != ""`, append
`{"text": self.new_todo, "completed": False}` (the raw, untrimmed text)
and clear `new_todo`; otherwise do nothing. -/
def add_todo (s : TodoState) : TodoState :=
  if pyStrip s.new_todo ≠ "" then
    { s with todos := s.todos ++ [{ text := s.new_todo, completed := false }],
             new_todo := "" }
  else s

/-- Flip the `completed` flag of the element at (resolved) position `j`. -/
def toggleAt : List Todo → Nat → List Todo
  | [], _ => []
  | t :: ts, 0 => { t with completed := !t.completed } :: ts
  | t :: ts, j + 1 => t :: toggleAt ts j

/-- Handler `toggle_todo(index)`:
`self.todos[index]["completed"] = not self.todos[index]["completed"]`.
Raises `IndexError` (`none`) when the index does not resolve. -/
def toggle_todo (s : TodoState) (index : Int) : Option TodoState :=
  match pyIndex s.todos.length index with
  | none => none
  | some j => some { s with todos := toggleAt s.todos j }

/-- Handler `delete_todo(index)`: `self.todos.pop(index)`.
Raises `IndexError` (`none`) when the index does not resolve. -/
def delete_todo (s : TodoState) (index : Int) : Option TodoState :=
  match pyIndex s.todos.length index with
  | none => none
  | some j => some { s with todos := s.todos.eraseIdx j }

/-- Handler `clear_completed`: keep exactly the todos that are not completed. -/
def clear_completed (s : TodoState) : TodoState :=
  { s with todos := s.todos.filter (fun t => !t.completed) }

/-- Derived view `filtered_todos`: the `@rx.var` derived view. -/
def filtered_todos (s : TodoState) : List Todo :=
  if s.filter_status = "active" then s.todos.filter (fun t => !t.completed)
  else if s.filter_status = "completed" then s.todos.filter (fun t => t.completed)
  else s.todos

/-- Handler `set_filter(status)`: `self.filter_status = status`, unconditionally. -/
def set_filter (s : TodoState) (status : String) : TodoState :=
  { s with filter_status := status }

/-- The setter Reflex generates for the `new_todo` field
(`TodoState.set_new_todo`, used by the input's `on_change`). -/
def set_new_todo (s : TodoState) (v : String) : TodoState :=
  { s with new_todo := v }

/-- The event handlers a client can invoke on `TODO_App.py`'s state. -/
inductive Op where
  | setNewTodo (v : String)
  | addTodo
  | toggleTodo (i : Int)
  | deleteTodo (i : Int)
  | clearCompleted
  | setFilterOp (status : String)

/-- One event. A handler that raises `IndexError` aborts before any
mutation, so the state is left as it was. -/
def applyOp (s : TodoState) : Op → TodoState
  | .setNewTodo v => set_new_todo s v
  | .addTodo => add_todo s
  | .toggleTodo i => (toggle_todo s i).getD s
  | .deleteTodo i => (delete_todo s i).getD s
  | .clearCompleted => clear_completed s
  | .setFilterOp st => set_filter s st

/-- A session: a sequence of events applied in order. -/
def run (ops : List Op) (s : TodoState) : TodoState := ops.foldl applyOp s

end TodoA

namespace TodoB

/-- One entry of `TodoState.tasks` in `todo_app.py`:
`{"description": ..., "completed": ..., "created_at": ...}`. -/
structure Task where
  description : String
  completed : Bool
  created_at : String
deriving Repr, DecidableEq

/-- The state of `todo_app.py`: `tasks` and `new_task_description`. -/
structure TodoState where
  tasks : List Task
  new_task_description : String
deriving Repr, DecidableEq

/-- The declared defaults: `tasks = []`, `new_task_description = ""`. -/
def initState : TodoState := { tasks := [], new_task_description := "" }

/-- The `(description, created_at)` identity test used by
`toggle_complete` and `delete_task`. -/
def matchesKey (t key : Task) : Prop :=
  t.description = key.description ∧ t.created_at = key.created_at

instance (t key : Task) : Decidable (matchesKey t key) := by
  unfold matchesKey; infer_instance

/-- Handler `add_task`: return unchanged if the stripped input is empty, otherwise
append `{"description": input.strip(), "completed": False, "created_at": now}`
and clear the input.  `now` is the formatted wall-clock string. -/
def add_task (s : TodoState) (now : String) : TodoState :=
  if pyStrip s.new_task_description = "" then s
  else
    { s with
      tasks := s.tasks ++
        [{ description := pyStrip s.new_task_description,
           completed := false, created_at := now }],
      new_task_description := "" }

/-- The loop body of `toggle_complete`: flip `completed` on the first
task matching the key, leave the rest alone (`break` after the hit). -/
def toggleFirst (key : Task) : List Task → List Task
  | [] => []
  | t :: ts =>
    if matchesKey t key then { t with completed := !t.completed } :: ts
    else t :: toggleFirst key ts

/-- Handler `toggle_complete(task_to_toggle)`. -/
def toggle_complete (s : TodoState) (key : Task) : TodoState :=
  { s with tasks := toggleFirst key s.tasks }

/-- Handler `delete_task(task_to_delete)`: keep exactly the tasks that do not
match the key (a list comprehension, so every match is dropped). -/
def delete_task (s : TodoState) (key : Task) : TodoState :=
  { s with tasks := s.tasks.filter (fun t => !(decide (matchesKey t key))) }

/-- Derived count `completed_tasks_count`: `sum(1 for task in self.tasks if task["completed"])`. -/
def completed_tasks_count (s : TodoState) : Nat :=
  s.tasks.countP (fun t => t.completed)

/-- Derived count `total_tasks_count`: `len(self.tasks)`. -/
def total_tasks_count (s : TodoState) : Nat := s.tasks.length

/-- The setter Reflex generates for `new_task_description`
(`TodoState.set_new_task_description`, used by the input's `on_change`). -/
def set_new_task_description (s : TodoState) (v : String) : TodoState :=
  { s with new_task_description := v }

/-- The event handlers a client can invoke on `todo_app.py`'s state.
`addTask` carries the wall-clock string the handler would read. -/
inductive Op where
  | setDescription (v : String)
  | addTask (now : String)
  | toggleComplete (key : Task)
  | deleteTask (key : Task)

/-- One event. -/
def applyOp (s : TodoState) : Op → TodoState
  | .setDescription v => set_new_task_description s v
  | .addTask now => add_task s now
  | .toggleComplete key => toggle_complete s key
  | .deleteTask key => delete_task s key

/-- A session: a sequence of events applied in order. -/
def run (ops : List Op) (s : TodoState) : TodoState := ops.foldl applyOp s

end TodoB

/-- Invariant of variant A: no stored todo has blank (empty or
whitespace-only) text. -/
def GoodA (s : TodoA.TodoState) : Prop := ∀ t ∈ s.todos, ¬ Blank t.text

/-- Invariant of variant B: no stored task has a blank description. -/
def GoodB (s : TodoB.TodoState) : Prop := ∀ t ∈ s.tasks, ¬ Blank t.description

/-- A concrete mixed state of variant A: one active and one completed todo. -/
def exA : TodoA.TodoState :=
  { todos := [{ text := "Buy milk", completed := false },
              { text := "Walk dog", completed := true }],
    new_todo := "", filter_status := "all" }

/-- A concrete state of variant B holding two tasks that share the same
`(description, created_at)` key and one that does not. -/
def exB : TodoB.TodoState :=
  { tasks := [{ description := "a", completed := false, created_at := "2024-01-01 10:00" },
              { description := "b", completed := false, created_at := "2024-01-01 10:00" },
              { description := "a", completed := true, created_at := "2024-01-01 10:00" }],
    new_task_description := "" }

/-- The key shared by the first and third task of `exB`. -/
def keyB : TodoB.Task :=
  { description := "a", completed := false, created_at := "2024-01-01 10:00" }

/-! Helper lemmas about stripping, indexing and the toggle helpers. -/

/-- A string of whitespace strips to the empty string. -/
theorem stripChars_eq_nil_of_all (l : List Char) (h : l.all isPySpace = true) :
    stripChars l = [] := by
  unfold stripChars
  have h1 : l.dropWhile isPySpace = [] :=
    List.dropWhile_eq_nil_iff.mpr (fun x hx => (List.all_eq_true.mp h) x hx)
  rw [h1]
  rfl

/-- The head surviving `dropWhile` fails the predicate. -/
theorem dropWhile_head_false {p : Char → Bool} :
    ∀ (l : List Char) {c : Char} {rest : List Char},
      l.dropWhile p = c :: rest → p c = false
  | [], c, rest, h => by simp at h
  | x :: xs, c, rest, h => by
    by_cases hx : p x
    · rw [List.dropWhile_cons_of_pos hx] at h
      exact dropWhile_head_false xs h
    · rw [List.dropWhile_cons_of_neg hx] at h
      cases h
      exact Bool.of_not_eq_true hx

/-- A non-empty strip result contains a non-whitespace character. -/
theorem stripChars_has_solid (l : List Char) (h : stripChars l ≠ []) :
    ∃ c ∈ stripChars l, isPySpace c = false := by
  unfold stripChars at *
  set m := (l.dropWhile isPySpace).reverse with hm
  rcases hd : m.dropWhile isPySpace with _ | ⟨c, rest⟩
  · rw [hd] at h; simp at h
  · refine ⟨c, ?_, dropWhile_head_false m hd⟩
    exact List.mem_reverse.mpr (List.mem_cons_self c rest)

/-- A blank string strips to the empty string. -/
theorem pyStrip_of_blank (s : String) (h : Blank s) : pyStrip s = "" := by
  unfold pyStrip
  rw [stripChars_eq_nil_of_all s.data h]

/-- A string whose strip is non-empty is not blank. -/
theorem not_blank_of_pyStrip_ne (s : String) (h : pyStrip s ≠ "") : ¬ Blank s :=
  fun hb => h (pyStrip_of_blank s hb)

/-- The strip of a string is never blank unless it is empty. -/
theorem not_blank_pyStrip (s : String) (h : pyStrip s ≠ "") : ¬ Blank (pyStrip s) := by
  intro hb
  have hne : stripChars s.data ≠ [] := by
    intro hnil
    apply h
    unfold pyStrip
    rw [hnil]
  obtain ⟨c, hc, hcf⟩ := stripChars_has_solid s.data hne
  have hct : isPySpace c = true := (List.all_eq_true.mp hb) c hc
  rw [hct] at hcf
  simp at hcf

/-- A natural index below the length resolves to itself. -/
theorem pyIndex_coe (n i : Nat) (h : i < n) : pyIndex n (i : Int) = some i := by
  unfold pyIndex
  rw [if_pos (Int.ofNat_nonneg i), if_pos (by exact_mod_cast h)]
  simp

/-- An index outside `[-n, n)` raises `IndexError`. -/
theorem pyIndex_none (n : Nat) (i : Int)
    (h : i < -(n : Int) ∨ (n : Int) ≤ i) : pyIndex n i = none := by
  unfold pyIndex
  rcases h with h | h
  · have hneg : ¬ 0 ≤ i := by omega
    rw [if_neg hneg, if_neg (by omega)]
  · have hpos : 0 ≤ i := by omega
    rw [if_pos hpos, if_neg (by omega)]

namespace TodoA

/-- Toggling preserves the length. -/
theorem toggleAt_length : ∀ (l : List Todo) (i : Nat), (toggleAt l i).length = l.length
  | [], _ => rfl
  | _ :: ts, 0 => rfl
  | _ :: ts, j + 1 => by simp [toggleAt, toggleAt_length ts j]

/-- Toggling preserves every text. -/
theorem toggleAt_map_text :
    ∀ (l : List Todo) (i : Nat), (toggleAt l i).map Todo.text = l.map Todo.text
  | [], _ => rfl
  | _ :: ts, 0 => rfl
  | _ :: ts, j + 1 => by simp [toggleAt, toggleAt_map_text ts j]

/-- Positions other than the toggled one are untouched. -/
theorem toggleAt_getElem?_ne :
    ∀ (l : List Todo) (i j : Nat), j ≠ i → (toggleAt l i)[j]? = l[j]?
  | [], _, _, _ => by simp [toggleAt]
  | t :: ts, 0, 0, h => absurd rfl h
  | t :: ts, 0, j + 1, _ => by simp [toggleAt]
  | t :: ts, i + 1, 0, _ => by simp [toggleAt]
  | t :: ts, i + 1, j + 1, h => by
    simp only [toggleAt, List.getElem?_cons_succ]
    exact toggleAt_getElem?_ne ts i j (fun hji => h (by omega))

/-- The toggled position holds the old entry with `completed` flipped. -/
theorem toggleAt_getElem?_self :
    ∀ (l : List Todo) (i : Nat),
      (toggleAt l i)[i]? = l[i]?.map (fun t => { t with completed := !t.completed })
  | [], _ => by simp [toggleAt]
  | t :: ts, 0 => by simp [toggleAt]
  | t :: ts, i + 1 => by
    simp only [toggleAt, List.getElem?_cons_succ]
    exact toggleAt_getElem?_self ts i

end TodoA

namespace TodoB

/-- With no matching task, `toggleFirst` is the identity. -/
theorem toggleFirst_of_no_match (key : Task) :
    ∀ (l : List Task), (∀ t ∈ l, ¬ matchesKey t key) → toggleFirst key l = l
  | [], _ => rfl
  | t :: ts, h => by
    rw [toggleFirst, if_neg (h t (List.mem_cons_self t ts)),
      toggleFirst_of_no_match key ts (fun u hu => h u (List.mem_cons_of_mem t hu))]

/-- Toggling preserves every description. -/
theorem toggleFirst_map_description (key : Task) :
    ∀ (l : List Task), (toggleFirst key l).map Task.description = l.map Task.description
  | [] => rfl
  | t :: ts => by
    by_cases h : matchesKey t key
    · simp [toggleFirst, if_pos h]
    · simp [toggleFirst, if_neg h, toggleFirst_map_description key ts]

end TodoB

/-- Every event handler of variant A preserves the invariant. -/
theorem goodA_applyOp (s : TodoA.TodoState) (op : TodoA.Op) (h : GoodA s) :
    GoodA (TodoA.applyOp s op) := by
  cases op with
  | setNewTodo v => exact h
  | addTodo =>
    show GoodA (TodoA.add_todo s)
    unfold TodoA.add_todo
    by_cases hc : pyStrip s.new_todo ≠ ""
    · rw [if_pos hc]
      intro t ht
      rcases List.mem_append.mp ht with h1 | h2
      · exact h t h1
      · have ht2 := List.mem_singleton.mp h2
        subst ht2
        exact not_blank_of_pyStrip_ne s.new_todo hc
    · rw [if_neg hc]; exact h
  | toggleTodo i =>
    show GoodA ((TodoA.toggle_todo s i).getD s)
    unfold TodoA.toggle_todo
    split
    · exact h
    · intro t ht
      have hmem : t.text ∈ (TodoA.toggleAt s.todos _).map TodoA.Todo.text :=
        List.mem_map_of_mem _ ht
      rw [TodoA.toggleAt_map_text] at hmem
      obtain ⟨u, hu, hut⟩ := List.mem_map.mp hmem
      rw [← hut]
      exact h u hu
  | deleteTodo i =>
    show GoodA ((TodoA.delete_todo s i).getD s)
    unfold TodoA.delete_todo
    split
    · exact h
    · intro t ht
      exact h t ((List.eraseIdx_sublist s.todos _).mem ht)
  | clearCompleted =>
    intro t ht
    exact h t (List.mem_filter.mp ht).1
  | setFilterOp st => exact h

/-- A whole session of variant A preserves the invariant. -/
theorem goodA_run :
    ∀ (ops : List TodoA.Op) (s : TodoA.TodoState), GoodA s → GoodA (TodoA.run ops s)
  | [], _, h => h
  | op :: ops, s, h => goodA_run ops (TodoA.applyOp s op) (goodA_applyOp s op h)

/-- Every event handler of variant B preserves the invariant. -/
theorem goodB_applyOp (s : TodoB.TodoState) (op : TodoB.Op) (h : GoodB s) :
    GoodB (TodoB.applyOp s op) := by
  cases op with
  | setDescription v => exact h
  | addTask now =>
    show GoodB (TodoB.add_task s now)
    unfold TodoB.add_task
    by_cases hc : pyStrip s.new_task_description = ""
    · rw [if_pos hc]; exact h
    · rw [if_neg hc]
      intro t ht
      rcases List.mem_append.mp ht with h1 | h2
      · exact h t h1
      · have ht2 := List.mem_singleton.mp h2
        subst ht2
        exact not_blank_pyStrip s.new_task_description hc
  | toggleComplete key =>
    intro t ht
    have hmem : t.description ∈ (TodoB.toggleFirst key s.tasks).map TodoB.Task.description :=
      List.mem_map_of_mem _ ht
    rw [TodoB.toggleFirst_map_description] at hmem
    obtain ⟨u, hu, hut⟩ := List.mem_map.mp hmem
    rw [← hut]
    exact h u hu
  | deleteTask key =>
    intro t ht
    exact h t (List.mem_filter.mp ht).1

/-- A whole session of variant B preserves the invariant. -/
theorem goodB_run :
    ∀ (ops : List TodoB.Op) (s : TodoB.TodoState), GoodB s → GoodB (TodoB.run ops s)
  | [], _, h => h
  | op :: ops, s, h => goodB_run ops (TodoB.applyOp s op) (goodB_applyOp s op h)

/-! Claim theorems. -/

/-- C4: the derived view `filtered_todos` returns exactly the
`completed == false` subsequence when the filter is `"active"`, exactly the
`completed == true` subsequence when it is `"completed"`, and the full task
list when it is `"all"`; in every case the result is a sublist of `todos`
(original relative order preserved), and being a pure function of the state
it modifies nothing. -/
theorem c4_filtered_todos_spec :
    ∀ s : TodoA.TodoState,
      (s.filter_status = "active" →
        TodoA.filtered_todos s = s.todos.filter (fun t => !t.completed)) ∧
      (s.filter_status = "completed" →
        TodoA.filtered_todos s = s.todos.filter (fun t => t.completed)) ∧
      (s.filter_status = "all" → TodoA.filtered_todos s = s.todos) ∧
      List.Sublist (TodoA.filtered_todos s) s.todos := by
  intro s
  refine ⟨fun h => ?_, fun h => ?_, fun h => ?_, ?_⟩
  · unfold TodoA.filtered_todos
    rw [if_pos h]
  · unfold TodoA.filtered_todos
    rw [if_neg (by rw [h]; decide), if_pos h]
  · unfold TodoA.filtered_todos
    rw [if_neg (by rw [h]; decide), if_neg (by rw [h]; decide)]
  · unfold TodoA.filtered_todos
    split
    · exact List.filter_sublist s.todos
    · split
      · exact List.filter_sublist s.todos
      · exact List.Sublist.refl s.todos

/-- C4 witness: on a concrete state with filter `"active"`, the view equals
the filtered list. -/
theorem c4_filtered_todos_spec_witness :
    (TodoA.set_filter exA "active").filter_status = "active" ∧
    TodoA.filtered_todos (TodoA.set_filter exA "active")
      = (TodoA.set_filter exA "active").todos.filter (fun t => !t.completed) :=
  ⟨rfl, (c4_filtered_todos_spec (TodoA.set_filter exA "active")).1 rfl⟩

/-- C5: `clear_completed` keeps exactly the todos with `completed = false`,
in their original relative order (the result is a sublist of the input that
contains no completed entry and every non-completed one), it is idempotent,
and it leaves the input buffer and filter untouched. -/
theorem c5_clear_completed_spec :
    ∀ s : TodoA.TodoState,
      (TodoA.clear_completed s).todos = s.todos.filter (fun t => !t.completed) ∧
      List.Sublist (TodoA.clear_completed s).todos s.todos ∧
      (∀ t ∈ (TodoA.clear_completed s).todos, t.completed = false) ∧
      (∀ t ∈ s.todos, t.completed = false → t ∈ (TodoA.clear_completed s).todos) ∧
      TodoA.clear_completed (TodoA.clear_completed s) = TodoA.clear_completed s ∧
      (TodoA.clear_completed s).new_todo = s.new_todo ∧
      (TodoA.clear_completed s).filter_status = s.filter_status := by
  intro s
  refine ⟨rfl, List.filter_sublist s.todos, fun t ht => ?_, fun t ht hc => ?_, ?_, rfl, rfl⟩
  · have := (List.mem_filter.mp ht).2
    simpa using this
  · exact List.mem_filter.mpr ⟨ht, by simp [hc]⟩
  · have hfix : ((TodoA.clear_completed s).todos).filter (fun t => !t.completed)
        = (TodoA.clear_completed s).todos :=
      List.filter_eq_self.mpr (fun a ha => (List.mem_filter.mp ha).2)
    show { TodoA.clear_completed s with
             todos := ((TodoA.clear_completed s).todos).filter (fun t => !t.completed) }
        = TodoA.clear_completed s
    rw [hfix]

/-- C5 witness: on a concrete mixed state, the completed todo is dropped,
the active one is kept, and a second call changes nothing. -/
theorem c5_clear_completed_spec_witness :
    (TodoA.clear_completed exA).todos = [{ text := "Buy milk", completed := false }] ∧
    (TodoA.Todo.mk "Buy milk" false).completed = false ∧
    TodoA.clear_completed (TodoA.clear_completed exA) = TodoA.clear_completed exA :=
  ⟨by decide,
   (c5_clear_completed_spec exA).2.2.1 (TodoA.Todo.mk "Buy milk" false) (by decide),
   (c5_clear_completed_spec exA).2.2.2.2.1⟩

/-- C9: `set_filter` accepts every string without error (it is a total
function that stores the value verbatim), and any stored filter value other
than `"active"` and `"completed"` makes `filtered_todos` return the full
task list, i.e. unrecognized filters behave exactly like `"all"`. -/
theorem c9_unrecognized_filter_is_all :
    ∀ (s : TodoA.TodoState) (status : String),
      TodoA.set_filter s status = { s with filter_status := status } ∧
      (status ≠ "active" → status ≠ "completed" →
        TodoA.filtered_todos (TodoA.set_filter s status) = s.todos) := by
  intro s status
  refine ⟨rfl, fun h1 h2 => ?_⟩
  show (if status = "active" then s.todos.filter (fun t => !t.completed)
        else if status = "completed" then s.todos.filter (fun t => t.completed)
        else s.todos) = s.todos
  rw [if_neg h1, if_neg h2]

/-- C9 witness: the unrecognized value `"bogus"` is accepted and behaves
like `"all"`. -/
theorem c9_unrecognized_filter_is_all_witness :
    TodoA.filtered_todos (TodoA.set_filter exA "bogus") = exA.todos :=
  (c9_unrecognized_filter_is_all exA "bogus").2 (by decide) (by decide)

/-- C6: for every index `i` in range of the current task list (the UI passes
natural positions `0 ≤ i < len`), `delete_todo i` succeeds and removes
exactly the entry at position `i`: the result is the first `i` entries
followed by the entries after position `i` (later entries shift down one),
its length is one less, and the other fields are untouched. -/
theorem c6_delete_todo_in_range :
    ∀ (s : TodoA.TodoState) (i : Nat), i < s.todos.length →
      TodoA.delete_todo s (i : Int)
        = some { s with todos := s.todos.take i ++ s.todos.drop (i + 1) } ∧
      (s.todos.take i ++ s.todos.drop (i + 1)).length = s.todos.length - 1 := by
  intro s i h
  constructor
  · unfold TodoA.delete_todo
    rw [pyIndex_coe s.todos.length i h]
    show some { s with todos := s.todos.eraseIdx i } = _
    rw [List.eraseIdx_eq_take_drop_succ]
  · rw [List.length_append, List.length_take, List.length_drop]
    omega

/-- C6 witness: deleting position 0 of a concrete two-entry list leaves
exactly the former second entry. -/
theorem c6_delete_todo_in_range_witness :
    (0 : Nat) < exA.todos.length ∧
    TodoA.delete_todo exA ((0 : Nat) : Int)
      = some { exA with todos := exA.todos.take 0 ++ exA.todos.drop 1 } :=
  ⟨by decide, (c6_delete_todo_in_range exA 0 (by decide)).1⟩

/-- C10: toggling an in-range index `i` succeeds and changes only the
`completed` flag of the entry at position `i`: the length, every other
position, every stored text, the pending input and the filter are all
unchanged, and position `i` holds the old entry with `completed` negated. -/
theorem c10_toggle_todo_frame :
    ∀ (s : TodoA.TodoState) (i : Nat), i < s.todos.length →
      ∃ s', TodoA.toggle_todo s (i : Int) = some s' ∧
        s'.todos.length = s.todos.length ∧
        s'.todos.map TodoA.Todo.text = s.todos.map TodoA.Todo.text ∧
        (∀ j : Nat, j ≠ i → s'.todos[j]? = s.todos[j]?) ∧
        s'.todos[i]? = s.todos[i]?.map (fun t => { t with completed := !t.completed }) ∧
        s'.new_todo = s.new_todo ∧
        s'.filter_status = s.filter_status := by
  intro s i h
  refine ⟨{ s with todos := TodoA.toggleAt s.todos i }, ?_,
    TodoA.toggleAt_length s.todos i, TodoA.toggleAt_map_text s.todos i,
    fun j hj => TodoA.toggleAt_getElem?_ne s.todos i j hj,
    TodoA.toggleAt_getElem?_self s.todos i, rfl, rfl⟩
  unfold TodoA.toggle_todo
  rw [pyIndex_coe s.todos.length i h]

/-- C10 witness: toggling position 1 of a concrete two-entry list keeps the
length, keeps position 0, and flips the flag at position 1. -/
theorem c10_toggle_todo_frame_witness :
    (1 : Nat) < exA.todos.length ∧
    ∃ s', TodoA.toggle_todo exA ((1 : Nat) : Int) = some s' ∧
      s'.todos.length = exA.todos.length ∧
      s'.todos[0]? = exA.todos[0]? ∧
      s'.todos[1]? = exA.todos[1]?.map (fun t => { t with completed := !t.completed }) := by
  refine ⟨by decide, ?_⟩
  obtain ⟨s', h1, h2, _, h4, h5, _⟩ := c10_toggle_todo_frame exA 1 (by decide)
  exact ⟨s', h1, h2, h4 0 (by decide), h5⟩

/-- C1 counterexample: with pending input `"  hi  "` (whose strip `"hi"` is
non-empty), the index-based `add_todo` appends the raw text `"  hi  "`, not
the trimmed `"hi"`, so the appended description does not equal the trimmed
input as the claim states. -/
theorem c1_add_raw_counterexample :
    pyStrip "  hi  " = "hi" ∧
    (TodoA.add_todo { todos := [], new_todo := "  hi  ", filter_status := "all" }).todos
      = [{ text := "  hi  ", completed := false }] ∧
    ("  hi  " : String) ≠ "hi" :=
  ⟨by decide, by decide, by decide⟩

/-- C1 (amended): for every state whose pending input has a non-empty strip,
adding appends exactly one new entry with `completed = false` at the end,
keeps all prior entries in order, increases the count by one and clears the
pending input; the identity-based `add_task` stores the trimmed input as the
description, while the index-based `add_todo` stores the raw (untrimmed)
input text. -/
theorem c1_add_appends_one :
    (∀ s : TodoA.TodoState, pyStrip s.new_todo ≠ "" →
      (TodoA.add_todo s).todos = s.todos ++ [{ text := s.new_todo, completed := false }] ∧
      (TodoA.add_todo s).todos.length = s.todos.length + 1 ∧
      (TodoA.add_todo s).new_todo = "" ∧
      (TodoA.add_todo s).filter_status = s.filter_status) ∧
    (∀ (s : TodoB.TodoState) (now : String), pyStrip s.new_task_description ≠ "" →
      (TodoB.add_task s now).tasks
        = s.tasks ++ [{ description := pyStrip s.new_task_description,
                        completed := false, created_at := now }] ∧
      (TodoB.add_task s now).tasks.length = s.tasks.length + 1 ∧
      (TodoB.add_task s now).new_task_description = "") := by
  constructor
  · intro s h
    unfold TodoA.add_todo
    rw [if_pos h]
    exact ⟨rfl, by simp, rfl, rfl⟩
  · intro s now h
    unfold TodoB.add_task
    rw [if_neg h]
    exact ⟨rfl, by simp, rfl⟩

/-- C1 witness: the amended theorem at concrete inputs, one per variant. -/
theorem c1_add_appends_one_witness :
    pyStrip " hi " ≠ "" ∧
    (TodoA.add_todo { todos := [], new_todo := " hi ", filter_status := "all" }).todos
      = [] ++ [{ text := " hi ", completed := false }] ∧
    (TodoB.add_task { tasks := [], new_task_description := " hi " } "2024-01-01 10:00").tasks
      = [] ++ [{ description := pyStrip " hi ", completed := false,
                 created_at := "2024-01-01 10:00" }] :=
  ⟨by decide,
   (c1_add_appends_one.1 { todos := [], new_todo := " hi ", filter_status := "all" }
     (by decide)).1,
   (c1_add_appends_one.2 { tasks := [], new_task_description := " hi " } "2024-01-01 10:00"
     (by decide)).1⟩

/-- C2 counterexample: on the empty index-based store every index matches no
task, yet `toggle_todo 0` and `delete_todo 0` raise `IndexError` (modelled
`none`) instead of leaving the state unchanged, so the operations are not
total no-ops in that variant. -/
theorem c2_index_error_counterexample :
    TodoA.toggle_todo TodoA.initState 0 = none ∧
    TodoA.delete_todo TodoA.initState 0 = none :=
  ⟨rfl, rfl⟩

/-- C2 (amended): in the identity-based variant, `toggle_complete` and
`delete_task` with a key matching no stored task are total no-ops; in the
index-based variant, an index outside `[-len, len)` makes `toggle_todo` and
`delete_todo` raise `IndexError` (modelled `none`, the state it carried
unchanged) rather than no-op. -/
theorem c2_missing_reference :
    (∀ (s : TodoB.TodoState) (key : TodoB.Task),
      (∀ t ∈ s.tasks, ¬ TodoB.matchesKey t key) →
      TodoB.toggle_complete s key = s ∧ TodoB.delete_task s key = s) ∧
    (∀ (s : TodoA.TodoState) (i : Int),
      (i < -(s.todos.length : Int) ∨ (s.todos.length : Int) ≤ i) →
      TodoA.toggle_todo s i = none ∧ TodoA.delete_todo s i = none) := by
  constructor
  · intro s key h
    constructor
    · show { s with tasks := TodoB.toggleFirst key s.tasks } = s
      rw [TodoB.toggleFirst_of_no_match key s.tasks h]
    · show { s with tasks := s.tasks.filter (fun t => !(decide (TodoB.matchesKey t key))) } = s
      rw [List.filter_eq_self.mpr (fun t ht => by simp [h t ht])]
  · intro s i hi
    have hp : pyIndex s.todos.length i = none := pyIndex_none s.todos.length i hi
    unfold TodoA.toggle_todo TodoA.delete_todo
    rw [hp]
    exact ⟨rfl, rfl⟩

/-- C2 witness: the amended theorem at concrete inputs, one per variant. -/
theorem c2_missing_reference_witness :
    (∀ t ∈ TodoB.initState.tasks, ¬ TodoB.matchesKey t keyB) ∧
    TodoB.toggle_complete TodoB.initState keyB = TodoB.initState ∧
    TodoB.delete_task TodoB.initState keyB = TodoB.initState ∧
    TodoA.toggle_todo exA 5 = none :=
  ⟨by simp [TodoB.initState],
   (c2_missing_reference.1 TodoB.initState keyB (by simp [TodoB.initState])).1,
   (c2_missing_reference.1 TodoB.initState keyB (by simp [TodoB.initState])).2,
   (c2_missing_reference.2 exA 5 (Or.inr (by decide))).1⟩

/-- C3 counterexample: `set_filter` applied to the unrecognized value
`"bogus"` succeeds (it is a total function) and stores `"bogus"`, so the
filter does not remain at its prior value and no `InvalidArgument` error is
raised. -/
theorem c3_set_filter_counterexample :
    (TodoA.set_filter TodoA.initState "bogus").filter_status = "bogus" ∧
    (TodoA.set_filter TodoA.initState "bogus").filter_status
      ≠ TodoA.initState.filter_status :=
  ⟨rfl, by decide⟩

/-- C3 (amended): `set_filter` performs no validation: for every string,
recognized or not, it succeeds and stores the value verbatim, leaving the
task list and the pending input unchanged; unrecognized values then behave
like `"all"` in the derived view instead of being rejected. -/
theorem c3_set_filter_no_validation :
    ∀ (s : TodoA.TodoState) (status : String),
      (TodoA.set_filter s status).filter_status = status ∧
      (TodoA.set_filter s status).todos = s.todos ∧
      (TodoA.set_filter s status).new_todo = s.new_todo :=
  fun _ _ => ⟨rfl, rfl, rfl⟩

/-- C7: starting from the initial empty store, no sequence of event-handler
invocations (input edits, add, toggle, delete, clear-completed, set-filter)
ever stores an entry whose text/description is empty or whitespace-only, in
either variant. -/
theorem c7_no_blank_entries :
    (∀ ops : List TodoA.Op,
      ∀ t ∈ (TodoA.run ops TodoA.initState).todos, ¬ Blank t.text) ∧
    (∀ ops : List TodoB.Op,
      ∀ t ∈ (TodoB.run ops TodoB.initState).tasks, ¬ Blank t.description) :=
  ⟨fun ops => goodA_run ops TodoA.initState (fun t ht => absurd ht (List.not_mem_nil t)),
   fun ops => goodB_run ops TodoB.initState (fun t ht => absurd ht (List.not_mem_nil t))⟩

/-- C7 witness: a concrete session adds the entry `" a "`, which is indeed
in the resulting store and is not blank. -/
theorem c7_no_blank_entries_witness :
    TodoA.Todo.mk " a " false
      ∈ (TodoA.run [TodoA.Op.setNewTodo " a ", TodoA.Op.addTodo] TodoA.initState).todos ∧
    ¬ Blank (TodoA.Todo.mk " a " false).text :=
  ⟨by decide,
   c7_no_blank_entries.1 [TodoA.Op.setNewTodo " a ", TodoA.Op.addTodo]
     (TodoA.Todo.mk " a " false) (by decide)⟩

/-- C8: `delete_task` removes every task whose description and creation
timestamp both equal the key's, not just the first match: the result is a
sublist of the original (relative order of survivors preserved), it contains
no matching task, every non-matching task survives, its length counts
exactly the non-matching tasks, and the pending input is untouched. -/
theorem c8_delete_task_removes_all :
    ∀ (s : TodoB.TodoState) (key : TodoB.Task),
      List.Sublist (TodoB.delete_task s key).tasks s.tasks ∧
      (∀ t ∈ (TodoB.delete_task s key).tasks, ¬ TodoB.matchesKey t key) ∧
      (∀ t ∈ s.tasks, ¬ TodoB.matchesKey t key → t ∈ (TodoB.delete_task s key).tasks) ∧
      (TodoB.delete_task s key).tasks.length
        = s.tasks.countP (fun t => !(decide (TodoB.matchesKey t key))) ∧
      (TodoB.delete_task s key).new_task_description = s.new_task_description := by
  intro s key
  refine ⟨List.filter_sublist s.tasks, fun t ht => ?_, fun t ht hm => ?_, ?_, rfl⟩
  · have := (List.mem_filter.mp ht).2
    simpa using this
  · exact List.mem_filter.mpr ⟨ht, by simp [hm]⟩
  · exact (List.countP_eq_length_filter _ s.tasks).symm

/-- C8 witness: in a concrete store with two tasks matching the key (around
a non-matching one), deletion removes both matches and keeps the
non-matching task, which indeed does not match. -/
theorem c8_delete_task_removes_all_witness :
    (TodoB.delete_task exB keyB).tasks
      = [{ description := "b", completed := false, created_at := "2024-01-01 10:00" }] ∧
    ¬ TodoB.matchesKey
      { description := "b", completed := false, created_at := "2024-01-01 10:00" } keyB :=
  ⟨by decide,
   (c8_delete_task_removes_all exB keyB).2.1
     { description := "b", completed := false, created_at := "2024-01-01 10:00" } (by decide)⟩
